import Mathlib

/-!
# Verification of the JABS device client recording-session controller

Shallow embedding of the recording-session state machine of the
JABS-device-client repository (`camera_controller.h/.cpp`,
`pylon_camera.cpp` and the revision of `RecordVideo` kept as
`src/unnamed/part_005`), together with theorems settling the frozen
claims about it.

Machine integers are modelled as `Nat`/`Int`; `double` fps samples are
modelled as `ℚ` (the claims are about the algorithm on the samples, not
about floating-point rounding); a C++ `throw` of `std::invalid_argument`
is modelled as `Except.error` carrying the exception message; wall-clock
instants are integers in seconds since the epoch.
-/

/-! ## Session configuration (`CameraController::RecordingSessionConfig`)

Fields and defaults from `camera_controller.h` lines 109-137.  The
`file_prefix_` field is called `file_pre_` here (the original name cannot
be used as a Lean identifier in this development); `duration_` is a
`std::chrono::seconds` count.  `session_id_` appears in
`camera_controller.cpp` (`set_session_id`, line 222) and is used by
`StartRecording` (line 88). -/

structure RecordingSessionConfig where
  target_fps_ : Nat := 60
  fragment_by_hour_ : Bool := false
  file_pre_ : String := ""
  duration_ : Int := 0
  pixel_format_ : String := "yuv420p"
  codec_ : String := "libx264"
  compression_target_ : String := "veryfast"
  crf_ : Nat := 11
  apply_filter_ : Bool := false
  session_id_ : Int := -1
  deriving DecidableEq, Repr

/-- `codecs::codec_names` from `camera_controller.h` line 17. -/
def codec_names : List String := ["mpeg4", "libx264"]

/-- `codecs::Validate` from `camera_controller.cpp` lines 19-22: membership
of the name in `codec_names`. -/
def codecsValidate (name : String) : Bool := codec_names.contains name

namespace RecordingSessionConfig

/-- `set_target_fps` (`camera_controller.cpp` lines 197-200): stores the
argument with no validation whatsoever and never throws. -/
def set_target_fps (cfg : RecordingSessionConfig) (fps : Nat) :
    Except String RecordingSessionConfig :=
  Except.ok { cfg with target_fps_ := fps }

/-- `set_duration` (`camera_controller.cpp` lines 214-220): throws
`std::invalid_argument` when the count is below one second, otherwise
assigns the field. -/
def set_duration (cfg : RecordingSessionConfig) (d : Int) :
    Except String RecordingSessionConfig :=
  if d < 1 then Except.error "duration must be at least one second"
  else Except.ok { cfg with duration_ := d }

/-- `set_codec` (`camera_controller.cpp` lines 227-233): throws
`std::invalid_argument` when the name is not in `codec_names`. -/
def set_codec (cfg : RecordingSessionConfig) (c : String) :
    Except String RecordingSessionConfig :=
  if ¬ codecsValidate c then Except.error "invalid codec name"
  else Except.ok { cfg with codec_ := c }

/-- `set_crf` (`camera_controller.cpp` lines 240-247): throws
`std::invalid_argument` when the value exceeds 51 (the parameter is
unsigned, so only the upper bound is checked). -/
def set_crf (cfg : RecordingSessionConfig) (crf : Nat) :
    Except String RecordingSessionConfig :=
  if crf > 51 then Except.error "crf must be in the range [0, 51]"
  else Except.ok { cfg with crf_ := crf }

/-- `set_session_id` (`camera_controller.cpp` lines 222-225): stores the
argument with no validation. -/
def set_session_id (cfg : RecordingSessionConfig) (sid : Int) :
    Except String RecordingSessionConfig :=
  Except.ok { cfg with session_id_ := sid }

/-- `set_file_prefix` (`camera_controller.cpp` lines 202-212).  The C++
assigns `"ltm_"` on an empty argument but then unconditionally overwrites
the field with the (empty) argument and calls `back()` on the resulting
empty string, which is undefined behavior; that path is modelled as
`none`.  For a non-empty argument the field becomes the argument with a
trailing underscore appended when not already present.  NOTE: this setter
never throws `std::invalid_argument`. -/
def set_file_pre (cfg : RecordingSessionConfig) (p : String) :
    Option RecordingSessionConfig :=
  if p.isEmpty then none
  else if p.back ≠ '_' then some { cfg with file_pre_ := p ++ "_" }
  else some { cfg with file_pre_ := p }

end RecordingSessionConfig

/-! ## Controller shared state (`camera_controller.h` lines 241-253)

One record holds every field of `CameraController` that the claims touch.
`moving_avg_cap_` models the `std::vector` capacity of `moving_avg_`
(grown by `reserve`, never shrunk); `session_start_` and times are integer
seconds since the epoch. -/

structure ControllerState where
  stop_recording_ : Bool := false
  recording_ : Bool := false
  elapsed_time_ : Int := 0
  session_start_ : Int := 0
  moving_avg_ : List ℚ := []
  moving_avg_cap_ : Nat := 0
  err_msg_ : String := ""
  err_state_ : Int := 0
  session_id_ : Int := -1
  deriving DecidableEq, Repr

/-- `CameraController::StartRecording` (`camera_controller.cpp` lines
80-107).  Returns `(result, state, spawned)`: the C++ `bool` return
value, the controller state after the call, and whether a worker thread
was spawned (`std::thread` construction on line 104).  When `recording_`
is already true the function returns `false` on line 85 before touching
any state and without constructing a thread; otherwise it stores the
session id, zeroes `elapsed_time_`, reserves `target_fps` capacity for
`moving_avg_` (reserve never shrinks a vector), sets `recording_ := true`
and spawns the worker. -/
def StartRecording (s : ControllerState) (config : RecordingSessionConfig) :
    Bool × ControllerState × Bool :=
  if s.recording_ then (false, s, false)
  else
    (true,
     { s with
       session_id_ := config.session_id_,
       elapsed_time_ := 0,
       moving_avg_cap_ := max s.moving_avg_cap_ config.target_fps_,
       recording_ := true },
     true)

/-- `CameraController::StopRecording` (`camera_controller.cpp` lines
109-116): when a recording thread is active, sets the atomic
`stop_recording_` flag to true (and then joins the worker); a no-op
otherwise.  Nothing in the repository ever assigns `false` to
`stop_recording_` after construction. -/
def StopRecording (s : ControllerState) : ControllerState :=
  if s.recording_ then { s with stop_recording_ := true } else s

/-- `CameraController::ClearSession` (`camera_controller.cpp` lines
171-177): when no recording thread is active, zeroes `elapsed_time_` and
resets `session_id_` to the sentinel -1. -/
def ClearSession (s : ControllerState) : ControllerState :=
  if ¬ s.recording_ then { s with elapsed_time_ := 0, session_id_ := -1 } else s

/-- `CameraController::elapsed_time` (`camera_controller.cpp` lines
118-128): while recording, the duration from `session_start_` to `now`
(cast to whole seconds); otherwise the value of the `elapsed_time_`
field. -/
def elapsed_time (s : ControllerState) (now : Int) : Int :=
  if s.recording_ then now - s.session_start_ else s.elapsed_time_

/-- `CameraController::avg_fps` (`camera_controller.cpp` lines 130-138):
`avg` starts at 0.0 and, when the buffer is non-empty, becomes the sum of
the buffer divided by its size (under the mutex). -/
def avg_fps (s : ControllerState) : ℚ :=
  if s.moving_avg_.length = 0 then 0
  else s.moving_avg_.sum / s.moving_avg_.length

/-! ## Writes the worker performs on shared controller state

`PylonCameraController::RecordVideo` (`src/pylon_camera.cpp`) writes the
shared fields `recording_`, `err_msg_`, `err_state_` and `elapsed_time_`
in a fixed textual order on each of its exit paths.  Each path is
embedded as the ordered list of those writes, and the resulting state is
obtained by folding `applyWrite` over the list. -/

inductive SharedWrite where
  | setRecording (b : Bool)
  | setErrMsg (m : String)
  | setErrState (k : Int)
  | setElapsed (d : Int)
  deriving DecidableEq, Repr

def applyWrite (s : ControllerState) : SharedWrite → ControllerState
  | .setRecording b => { s with recording_ := b }
  | .setErrMsg m => { s with err_msg_ := m }
  | .setErrState k => { s with err_state_ := k }
  | .setElapsed d => { s with elapsed_time_ := d }

def applyWrites (s : ControllerState) (ws : List SharedWrite) : ControllerState :=
  ws.foldl applyWrite s

/-- Output-directory setup failure (`pylon_camera.cpp` lines 41-47): the
`catch` block for `std::runtime_error` thrown by the output-directory
helper (`MakeFilePath`, `camera_controller.cpp` lines 150-169, throws
`std::runtime_error` when `mkdir` fails) assigns `recording_ = false`
FIRST, then `err_msg_`, then `err_state_ = 1`, and returns. -/
def outputDirFailWrites (msg : String) : List SharedWrite :=
  [.setRecording false,
   .setErrMsg ("unable to setup output dir: " ++ msg),
   .setErrState 1]

/-- Timestamp-file open failure (`pylon_camera.cpp` lines 60-65):
`err_state_ = 1`, then `err_msg_`, then `recording_ = false`, and
returns. -/
def timestampFailWrites : List SharedWrite :=
  [.setErrState 1,
   .setErrMsg "error opening timestamp files",
   .setRecording false]

/-- Camera attach/configure failure (`pylon_camera.cpp` lines 84-90): the
`catch` block for the Pylon `GenericException` assigns
`recording_ = false` FIRST, then `err_msg_`, then `err_state_ = 1`, and
returns. -/
def cameraFailWrites (msg : String) : List SharedWrite :=
  [.setRecording false,
   .setErrMsg ("unable to configure camera: " ++ msg),
   .setErrState 1]

/-- Normal loop exit (`pylon_camera.cpp` lines 187-193): after
`StopGrabbing`/`Close`, write the final `elapsed_time_` and then
`recording_ = false` as the last shared write. -/
def normalExitWrites (e : Int) : List SharedWrite :=
  [.setElapsed e, .setRecording false]

/-- Frame-retrieval timeout (`pylon_camera.cpp` lines 127-132): the loop
writes `err_msg_` then `err_state_ = 1` and breaks, after which the
normal-exit writes run (lines 187-193). -/
def timeoutExitWrites (msg : String) (e : Int) : List SharedWrite :=
  [.setErrMsg ("Timeout retrieving frame: " ++ msg),
   .setErrState 1,
   .setElapsed e,
   .setRecording false]

/-! ## Worker initialization (`RecordVideo` before the acquisition loop)

`pylon_camera.cpp` lines 19-111.  The interactions with the filesystem
and the camera SDK are abstracted into an `InitOutcome`: which (if any)
of the three fallible initialization steps failed, and with what
exception message.  `RecordVideoInit` returns the controller state after
the preamble, whether the acquisition loop is reached, and whether an
exception escaped the worker (the C++ catches `std::runtime_error` from
the directory helper and `GenericException` from the camera, so no
modelled failure escapes). -/

inductive InitOutcome where
  | dirOk
  | dirFail (msg : String)
  | fileFail
  | cameraFail (msg : String)
  deriving DecidableEq, Repr

def RecordVideoInit (s : ControllerState) (o : InitOutcome) :
    ControllerState × Bool × Bool :=
  -- line 23: err_state_ = 0
  let s := { s with err_state_ := 0 }
  match o with
  | .dirFail msg => (applyWrites s (outputDirFailWrites msg), false, false)
  | .fileFail => (applyWrites s timestampFailWrites, false, false)
  | .cameraFail msg => (applyWrites s (cameraFailWrites msg), false, false)
  | .dirOk => (s, true, false)

/-! ## Controller operation traces

Every mutation of controller state found in the repository, as one
inductive of operations: the three public control-thread operations,
the hot-reload setters (which touch none of the fields modelled here
beyond `directory_`/frame geometry, so they are represented by `reload`),
and the worker-side transitions embedded above. -/

inductive ControllerOp where
  | start (config : RecordingSessionConfig)
  | stop
  | clear
  | reload
  | workerInit (o : InitOutcome)
  | workerExit (ws : List SharedWrite)
  deriving Repr

def applyOp (s : ControllerState) : ControllerOp → ControllerState
  | .start config => (StartRecording s config).2.1
  | .stop => StopRecording s
  | .clear => ClearSession s
  | .reload => s
  | .workerInit o => (RecordVideoInit s o).1
  | .workerExit ws => applyWrites s ws

def applyOps (s : ControllerState) (ops : List ControllerOp) : ControllerState :=
  ops.foldl applyOp s

/-! ## The acquisition loop

`PylonCameraController::RecordVideo`, acquisition loop.  The loop body is
textually identical in `src/pylon_camera.cpp` (lines 114-185) and in the
`src/unnamed/part_005` revision (lines 88-164) except for the hourly
rollover: `part_005` calls `video_writer.RollFile(filename)` and treats a
non-zero return as session-fatal (lines 153-157), while
`pylon_camera.cpp` replaces the `VideoWriter` unconditionally.  The
embedding below follows `part_005`, which is the revision with an
explicit roll-failure path.

Interactions with the camera and the wall clock are abstracted into one
`LoopInput` per iteration: the time at the top of the iteration, the
value of the atomic stop flag read by this iteration, the grab outcome,
the wall-clock hour at the rollover check (`GetCurrentHour()`, line 147),
the hour of the new file's start time (`GetCurrentHour(start_time)`,
line 159) and whether `RollFile` returned 0. -/

/-- `uint64_t` subtraction `a - b` (wraps modulo 2^64), used for the
frame-timestamp deltas. -/
def u64_sub (a b : Nat) : Nat := (2 ^ 64 + a % 2 ^ 64 - b % 2 ^ 64) % 2 ^ 64

/-- `current_fps = 1.0/((frame_timestamp - last_click)/125000000.0)`
(`pylon_camera.cpp` line 153 / `part_005` line 127): the camera tick is
125 MHz. -/
def instFps (t lastClick : Nat) : ℚ := 125000000 / (u64_sub t lastClick : ℚ)

/-- The push into the moving-average vector (`pylon_camera.cpp` lines
154-160 / `part_005` lines 128-134): under the mutex, if the vector is at
capacity the last (oldest) element is popped, then the sample is inserted
at the front. -/
def movingAvgPush (buf : List ℚ) (cap : Nat) (v : ℚ) : List ℚ :=
  let buf := if buf.length = cap then buf.dropLast else buf
  v :: buf

/-- Per-session parameters the loop reads: the session duration and start
instant, the fragmentation flag, and the capacity of `moving_avg_`. -/
structure LoopParams where
  duration : Int
  session_start : Int
  fragment_by_hour : Bool := false
  cap : Nat
  deriving DecidableEq, Repr

/-- The loop's mutable state: the local variables of `RecordVideo`
(`current_frame`, `frames_captured`, `first_click`, `last_click`,
`next_hour`) plus the shared `moving_avg_` buffer and error fields, and
three ghost fields tracking observable interaction: `encoded` logs each
`(timestamp, frame index)` handed to `VideoWriter::EncodeFrame`, `rolls`
counts successful `RollFile` calls, and `file_start_hour` records
`GetCurrentHour(start_time)` for the file currently being written. -/
structure LoopState where
  current_frame : Nat := 0
  frames_captured : Nat := 0
  first_click : Nat := 0
  last_click : Nat := 0
  moving_avg : List ℚ := []
  next_hour : Int := 0
  err_state : Int := 0
  err_msg : String := ""
  encoded : List (Nat × Nat) := []
  rolls : Nat := 0
  file_start_hour : Int := 0
  deriving DecidableEq, Repr

inductive GrabOutcome where
  | timeoutErr (msg : String)
  | notGrabbed
  | frame (timestamp : Nat)
  deriving DecidableEq, Repr

structure LoopInput where
  now : Int
  stopFlag : Bool
  grab : GrabOutcome
  hourAtCheck : Int := 0
  rollHour : Int := 0
  rollOk : Bool := true
  deriving DecidableEq, Repr

/-- The state of the loop's local variables and `moving_avg_` when the
loop is first entered: all counters zero (`part_005` lines 25-28 /
`pylon_camera.cpp` lines 32-35), `next_hour` computed from the session
start hour when `fragment_by_hour` is set (`part_005` lines 76-79), and
`moving_avg` carried over from the controller — nothing clears it. -/
def initLoopState (carriedAvg : List ℚ) (fragment : Bool) (startHour : Int) :
    LoopState :=
  if fragment then
    { moving_avg := carriedAvg,
      next_hour := (startHour + 1) % 24,
      file_start_hour := startHour }
  else { moving_avg := carriedAvg, file_start_hour := startHour }

/-- One iteration of the acquisition loop (`part_005` lines 88-164).
Returns the new state and `true` when the loop continues to the next
iteration, `false` when it breaks or the condition at the top exits. -/
def loopStep (p : LoopParams) (st : LoopState) (i : LoopInput) :
    LoopState × Bool :=
  -- lines 89-96: elapsed time and the stop/duration check
  if i.stopFlag = true ∨ p.duration ≤ i.now - p.session_start then (st, false)
  else
    match i.grab with
    -- lines 99-106: RetrieveResult threw: record the error and break
    | .timeoutErr msg =>
      ({ st with err_msg := "Timeout retrieving frame: " ++ msg,
                 err_state := 1 }, false)
    -- lines 108-112: grab not succeeded: skip the frame and continue
    | .notGrabbed => (st, true)
    | .frame t =>
      -- lines 121-123: remember the first frame's timestamp
      let st := if st.frames_captured = 0 then { st with first_click := t } else st
      -- lines 127-134: push the instantaneous fps sample, update last_click
      let st := { st with
                  moving_avg := movingAvgPush st.moving_avg p.cap (instFps t st.last_click),
                  last_click := t }
      -- line 141: EncodeFrame(buffer, current_frame)
      let st := { st with encoded := st.encoded ++ [(t, st.current_frame)] }
      -- lines 143-144: increment the counters
      let st := { st with current_frame := st.current_frame + 1,
                          frames_captured := st.frames_captured + 1 }
      -- lines 147-161: hourly rollover check
      if p.fragment_by_hour = true ∧ i.hourAtCheck = st.next_hour then
        if i.rollOk then
          ({ st with next_hour := (i.rollHour + 1) % 24,
                     current_frame := 0,
                     rolls := st.rolls + 1,
                     file_start_hour := i.rollHour }, true)
        else
          ({ st with err_msg := "Unable to setup next video",
                     err_state := 1 }, false)
      else (st, true)

/-- Run the acquisition loop on a list of per-iteration inputs, stopping
early when an iteration breaks. -/
def runLoop (p : LoopParams) : LoopState → List LoopInput → LoopState
  | st, [] => st
  | st, i :: rest =>
    let r := loopStep p st i
    if r.2 then runLoop p r.1 rest else r.1

/-- The `next_hour` bookkeeping invariant of hourly fragmentation:
`next_hour` is one hour (mod 24) after the hour at which the file
currently being written was started. -/
def nextHourInv (st : LoopState) : Prop :=
  st.next_hour = (st.file_start_hour + 1) % 24

/-! ## Helper lemmas -/

theorem applyWrite_stop (s : ControllerState) (w : SharedWrite) :
    (applyWrite s w).stop_recording_ = s.stop_recording_ := by
  cases w <;> rfl

theorem applyWrites_stop (ws : List SharedWrite) (s : ControllerState) :
    (applyWrites s ws).stop_recording_ = s.stop_recording_ := by
  induction ws generalizing s with
  | nil => rfl
  | cons w ws ih =>
    show (applyWrites (applyWrite s w) ws).stop_recording_ = _
    rw [ih, applyWrite_stop]

/-- No operation of the repository ever assigns `false` to
`stop_recording_`: `StopRecording` is the only writer and writes `true`
(`camera_controller.cpp` line 112). -/
theorem applyOp_stop_mono (s : ControllerState) (op : ControllerOp)
    (h : s.stop_recording_ = true) : (applyOp s op).stop_recording_ = true := by
  cases op with
  | start config =>
    simp only [applyOp, StartRecording]
    split <;> simp [h]
  | stop =>
    simp only [applyOp, StopRecording]
    split <;> simp [h]
  | clear =>
    simp only [applyOp, ClearSession]
    split <;> simp [h]
  | reload => exact h
  | workerInit o =>
    cases o <;> simp [applyOp, RecordVideoInit, applyWrites_stop, h]
  | workerExit ws =>
    simpa [applyOp, applyWrites_stop] using h

theorem applyOps_stop_mono (ops : List ControllerOp) (s : ControllerState)
    (h : s.stop_recording_ = true) :
    (applyOps s ops).stop_recording_ = true := by
  induction ops generalizing s with
  | nil => exact h
  | cons op rest ih => exact ih _ (applyOp_stop_mono s op h)

/-! ## Claims -/

/-- C1: for every call to `StartRecording(config)` made while
`recording() == true`, the call returns `false`, spawns no worker thread,
and leaves all controller state (`elapsed_time_`, `moving_avg_`,
`recording_`, session state) unchanged. -/
theorem startRecording_busy_noop (s : ControllerState)
    (config : RecordingSessionConfig) (h : s.recording_ = true) :
    StartRecording s config = (false, s, false) := by
  simp [StartRecording, h]

theorem startRecording_busy_noop_witness :
    StartRecording { recording_ := true } {} =
      (false, { recording_ := true }, false) :=
  startRecording_busy_noop { recording_ := true } {} rfl

/-- C2: once `StopRecording()` has set the `stop_recording_` flag, it
stays true for the remaining lifetime of the controller — no operation
(including `StartRecording`) ever resets it — and a worker whose first
loop-condition read of the flag returns true exits the acquisition loop
immediately, capturing no frame (the loop state, in particular
`frames_captured` and the `encoded` log, is returned untouched; a fresh
session enters the loop with `frames_captured = 0` and an empty log). -/
theorem stop_flag_latched_blocks_later_sessions
    (s : ControllerState) (ops : List ControllerOp)
    (p : LoopParams) (st : LoopState) (i : LoopInput) (rest : List LoopInput)
    (carried : List ℚ) (frag : Bool) (h0 : Int)
    (hs : s.stop_recording_ = true) (hstop : i.stopFlag = true) :
    (applyOps s ops).stop_recording_ = true ∧
    runLoop p st (i :: rest) = st ∧
    (initLoopState carried frag h0).frames_captured = 0 ∧
    (initLoopState carried frag h0).encoded = [] := by
  refine ⟨applyOps_stop_mono ops s hs, ?_, ?_, ?_⟩
  · simp [runLoop, loopStep, hstop]
  · unfold initLoopState; split <;> rfl
  · unfold initLoopState; split <;> rfl

theorem stop_flag_latched_blocks_later_sessions_witness :
    (applyOps { stop_recording_ := true } [.start {}, .clear]).stop_recording_ = true ∧
    runLoop { duration := 1000, session_start := 0, cap := 30 }
        (initLoopState [] false 0)
        [{ now := 0, stopFlag := true, grab := .frame 125 }] =
      initLoopState [] false 0 ∧
    (initLoopState [] false 0).frames_captured = 0 ∧
    (initLoopState [] false 0).encoded = [] :=
  stop_flag_latched_blocks_later_sessions { stop_recording_ := true }
    [.start {}, .clear] { duration := 1000, session_start := 0, cap := 30 }
    (initLoopState [] false 0)
    { now := 0, stopFlag := true, grab := .frame 125 } [] [] false 0 rfl rfl

/-- C3 counterexample: `set_target_fps(0)` — a value the claim calls
invalid (`target_fps` must be `> 0`) — does not throw: it succeeds and
stores 0 in the config. -/
theorem set_target_fps_zero_not_rejected :
    RecordingSessionConfig.set_target_fps {} 0 =
      Except.ok { target_fps_ := 0 } := rfl

/-- C3 amended: `set_duration`, `set_codec` and `set_crf` do validate and
throw `std::invalid_argument` with a descriptive message, leaving the
config unchanged, for duration `< 1 s`, an unrecognized codec, or
`crf > 51`; but `set_target_fps` performs no validation (it accepts 0),
and `set_file_prefix` never throws (an empty prefix is not rejected — it
runs into undefined behavior instead), so a config with `target_fps = 0`
can reach `StartRecording`. -/
theorem setters_validate_duration_codec_crf_only
    (cfg : RecordingSessionConfig) :
    (∀ d : Int, d < 1 →
      cfg.set_duration d = Except.error "duration must be at least one second") ∧
    (∀ d : Int, 1 ≤ d →
      cfg.set_duration d = Except.ok { cfg with duration_ := d }) ∧
    (∀ c : String, codecsValidate c = false →
      cfg.set_codec c = Except.error "invalid codec name") ∧
    (∀ k : Nat, 51 < k →
      cfg.set_crf k = Except.error "crf must be in the range [0, 51]") ∧
    (∀ k : Nat, k ≤ 51 →
      cfg.set_crf k = Except.ok { cfg with crf_ := k }) ∧
    (∀ fps : Nat,
      cfg.set_target_fps fps = Except.ok { cfg with target_fps_ := fps }) ∧
    (∀ p : String, ¬ p.isEmpty → (cfg.set_file_pre p).isSome) := by
  refine ⟨?_, ?_, ?_, ?_, ?_, fun _ => rfl, ?_⟩
  · intro d hd; simp [RecordingSessionConfig.set_duration, hd]
  · intro d hd
    simp [RecordingSessionConfig.set_duration, show ¬ d < 1 by omega]
  · intro c hc; simp [RecordingSessionConfig.set_codec, hc]
  · intro k hk; simp [RecordingSessionConfig.set_crf, hk]
  · intro k hk
    simp [RecordingSessionConfig.set_crf, show ¬ 51 < k by omega]
  · intro p hp
    rw [RecordingSessionConfig.set_file_pre, if_neg hp]
    split <;> rfl

theorem setters_validate_duration_codec_crf_only_witness :
    ({} : RecordingSessionConfig).set_duration 0 =
      Except.error "duration must be at least one second" ∧
    ({} : RecordingSessionConfig).set_duration 60 =
      Except.ok { ({} : RecordingSessionConfig) with duration_ := 60 } ∧
    ({} : RecordingSessionConfig).set_codec "h264" =
      Except.error "invalid codec name" ∧
    ({} : RecordingSessionConfig).set_crf 52 =
      Except.error "crf must be in the range [0, 51]" ∧
    ({} : RecordingSessionConfig).set_crf 20 =
      Except.ok { ({} : RecordingSessionConfig) with crf_ := 20 } ∧
    ({} : RecordingSessionConfig).set_target_fps 0 =
      Except.ok { ({} : RecordingSessionConfig) with target_fps_ := 0 } ∧
    (({} : RecordingSessionConfig).set_file_pre "video").isSome := by
  have h := setters_validate_duration_codec_crf_only {}
  exact ⟨h.1 0 (by decide), h.2.1 60 (by decide), h.2.2.1 "h264" (by decide),
    h.2.2.2.1 52 (by decide), h.2.2.2.2.1 20 (by decide),
    h.2.2.2.2.2.1 0, h.2.2.2.2.2.2 "video" (by decide)⟩

/-- Pushing into a buffer that holds the most recent `cap` samples keeps
it at the most recent `cap` samples. -/
theorem movingAvgPush_take (cap : Nat) (hcap : 0 < cap) (l : List ℚ) (v : ℚ) :
    movingAvgPush (l.take cap) cap v = (v :: l).take cap := by
  obtain ⟨m, rfl⟩ : ∃ m, cap = m + 1 :=
    ⟨cap - 1, (Nat.succ_pred_eq_of_pos hcap).symm⟩
  rcases le_or_lt (m + 1) l.length with h | h
  · have hlen : (l.take (m + 1)).length = m + 1 := by
      simp [List.length_take]; omega
    unfold movingAvgPush
    simp only [hlen, if_pos rfl, List.take_succ_cons]
    rw [List.dropLast_eq_take, hlen]
    simp [List.take_take]
  · have hall : l.take (m + 1) = l := List.take_of_length_le (by omega)
    unfold movingAvgPush
    rw [hall]
    rw [if_neg (show ¬ l.length = m + 1 by omega), List.take_succ_cons,
      List.take_of_length_le (by omega)]

/-- Folding the worker's push over a sample list from a buffer holding
the most recent `cap` of `pre` yields the most recent `cap` of the whole
history, most recent first. -/
theorem foldl_movingAvgPush (cap : Nat) (hcap : 0 < cap) (xs : List ℚ) :
    ∀ pre : List ℚ,
      xs.foldl (fun b v => movingAvgPush b cap v) (pre.take cap) =
        (xs.reverse ++ pre).take cap := by
  induction xs with
  | nil => intro pre; simp
  | cons x rest ih =>
    intro pre
    simp only [List.foldl_cons]
    rw [movingAvgPush_take cap hcap pre x, ih (x :: pre)]
    simp [List.reverse_cons, List.append_assoc]

/-- C4: `avg_fps()` returns 0 when the moving-average buffer is empty and
the arithmetic mean of the buffer otherwise; starting from an empty
buffer with capacity `cap > 0`, the worker's push keeps exactly the most
recent `cap` samples in recency order (most recent at the front, oldest
popped once full) — after any sample list the buffer is
`reverse.take cap`, and once at least `cap` samples have been pushed its
length is exactly `cap`; a session started on a fresh controller reserves
capacity `target_fps` for the buffer. -/
theorem avg_fps_moving_window
    (s fresh : ControllerState) (config : RecordingSessionConfig)
    (cap : Nat) (samples : List ℚ)
    (hcap : 0 < cap) (hfresh : fresh.recording_ = false)
    (hcap0 : fresh.moving_avg_cap_ = 0) :
    (s.moving_avg_ = [] → avg_fps s = 0) ∧
    (s.moving_avg_ ≠ [] →
      avg_fps s = s.moving_avg_.sum / s.moving_avg_.length) ∧
    ((StartRecording fresh config).2.1.moving_avg_cap_ = config.target_fps_) ∧
    (samples.foldl (fun b v => movingAvgPush b cap v) [] =
      samples.reverse.take cap) ∧
    (cap ≤ samples.length →
      (samples.foldl (fun b v => movingAvgPush b cap v) []).length = cap) := by
  have hfold : samples.foldl (fun b v => movingAvgPush b cap v) [] =
      samples.reverse.take cap := by
    simpa using foldl_movingAvgPush cap hcap samples []
  refine ⟨?_, ?_, ?_, hfold, ?_⟩
  · intro h; simp [avg_fps, h]
  · intro h; simp [avg_fps, List.length_eq_zero, h]
  · simp [StartRecording, hfresh, hcap0]
  · intro hle
    rw [hfold]
    simp [List.length_take]
    omega

theorem avg_fps_moving_window_witness :
    avg_fps { moving_avg_ := [] } = 0 ∧
    avg_fps { moving_avg_ := [2, 4] } =
      ([2, 4] : List ℚ).sum / ([2, 4] : List ℚ).length ∧
    (StartRecording {} { target_fps_ := 2 }).2.1.moving_avg_cap_ = 2 ∧
    ([1, 2, 3] : List ℚ).foldl (fun b v => movingAvgPush b 2 v) [] =
      ([1, 2, 3] : List ℚ).reverse.take 2 ∧
    (([1, 2, 3] : List ℚ).foldl (fun b v => movingAvgPush b 2 v) []).length = 2 := by
  have h₁ := avg_fps_moving_window { moving_avg_ := [] } {} { target_fps_ := 2 }
    2 [1, 2, 3] (by decide) rfl rfl
  have h₂ := avg_fps_moving_window { moving_avg_ := [2, 4] } {} { target_fps_ := 2 }
    2 [1, 2, 3] (by decide) rfl rfl
  exact ⟨h₁.1 rfl, h₂.2.1 (by decide), h₁.2.2.1, h₁.2.2.2.1,
    h₁.2.2.2.2 (by decide)⟩

/-- Loop parameters for the C5 counterexample run: a 1000 s session
started at time 0 with buffer capacity 30 and no fragmentation. -/
def c5Params : LoopParams := { duration := 1000, session_start := 0, cap := 30 }

/-- A single loop iteration at time 0, stop flag clear, in which the very
first frame of the session is grabbed successfully with hardware
timestamp 125000000 (one second of 125 MHz camera ticks). -/
def c5Input : LoopInput := { now := 0, stopFlag := false, grab := .frame 125000000 }

/-- C5 counterexample: after the session's FIRST successfully grabbed
frame the moving-average buffer is NOT empty — the loop pushes a sample
for the first frame too, computed against the initial `last_click = 0`
(here `1.0/((125000000 - 0)/125000000.0) = 1`).  The claim, which says
the first frame is excluded from the buffer, would require the buffer to
still be empty at this point. -/
theorem first_frame_sample_in_buffer :
    (runLoop c5Params (initLoopState [] false 0) [c5Input]).frames_captured = 1 ∧
    (runLoop c5Params (initLoopState [] false 0) [c5Input]).moving_avg = [(1 : ℚ)] ∧
    (runLoop c5Params (initLoopState [] false 0) [c5Input]).moving_avg ≠ [] := by
  refine ⟨?_, ?_, ?_⟩ <;>
    norm_num [runLoop, loopStep, c5Params, c5Input, initLoopState,
      movingAvgPush, instFps, u64_sub]

/-- C5 amended: every successfully grabbed frame — including the first of
the session — contributes exactly one instantaneous-fps sample to the
moving-average buffer; the sample is computed from the delta between the
frame's hardware timestamp and `last_click`, which for the first frame is
its initial value 0 rather than a previous frame's timestamp. -/
theorem good_frame_always_pushes_sample (p : LoopParams) (st : LoopState)
    (i : LoopInput) (t : Nat)
    (hstop : i.stopFlag = false)
    (hdur : i.now - p.session_start < p.duration)
    (hgrab : i.grab = .frame t) :
    (loopStep p st i).1.moving_avg =
      movingAvgPush st.moving_avg p.cap (instFps t st.last_click) ∧
    (loopStep p st i).1.frames_captured = st.frames_captured + 1 := by
  have hcond : ¬ (i.stopFlag = true ∨ p.duration ≤ i.now - p.session_start) := by
    simp [hstop]; omega
  simp only [loopStep, if_neg hcond, hgrab]
  repeat' split
  all_goals simp

theorem good_frame_always_pushes_sample_witness :
    (loopStep c5Params (initLoopState [] false 0) c5Input).1.moving_avg =
      movingAvgPush (initLoopState [] false 0).moving_avg c5Params.cap
        (instFps 125000000 (initLoopState [] false 0).last_click) ∧
    (loopStep c5Params (initLoopState [] false 0) c5Input).1.frames_captured =
      (initLoopState [] false 0).frames_captured + 1 :=
  good_frame_always_pushes_sample c5Params (initLoopState [] false 0) c5Input
    125000000 rfl (by decide) rfl

/-- A controller as left behind by an earlier session: not recording, one
fps sample (42) still in the moving-average buffer. -/
def c6Prev : ControllerState :=
  { moving_avg_ := [42], moving_avg_cap_ := 30, elapsed_time_ := 7 }

/-- C6 counterexample: starting a new session on a controller whose
buffer still holds a sample from the previous session, and running the
worker preamble (which resets `err_state_` but nothing else), leaves the
old sample in the buffer — neither `StartRecording` (which only calls
`reserve`) nor the worker's INITIALIZING phase ever clears
`moving_avg_`.  The claim, which says the fps trackers are cleared, would
require the buffer to be empty here. -/
theorem moving_avg_not_cleared_on_new_session :
    (StartRecording c6Prev {}).1 = true ∧
    (RecordVideoInit (StartRecording c6Prev {}).2.1 .dirOk).1.moving_avg_ = [42] ∧
    (RecordVideoInit (StartRecording c6Prev {}).2.1 .dirOk).1.moving_avg_ ≠ [] := by
  refine ⟨rfl, rfl, ?_⟩
  simp [RecordVideoInit, StartRecording, c6Prev]

/-- C6 amended: at the start of every worker session the per-session
counters do start at zero (`current_frame` and `frames_captured` are
fresh locals of `RecordVideo`), but the moving-average buffer is NOT
cleared: `StartRecording` only reserves capacity and the worker preamble
only resets `err_state_`, so samples recorded by a previous session are
still in the buffer when the new session begins. -/
theorem session_init_counters_zero_buffer_kept
    (s : ControllerState) (config : RecordingSessionConfig) (o : InitOutcome)
    (carried : List ℚ) (frag : Bool) (h0 : Int)
    (h : s.recording_ = false) :
    (RecordVideoInit (StartRecording s config).2.1 o).1.moving_avg_ =
      s.moving_avg_ ∧
    (initLoopState carried frag h0).current_frame = 0 ∧
    (initLoopState carried frag h0).frames_captured = 0 := by
  refine ⟨?_, ?_, ?_⟩
  · cases o <;>
      simp [RecordVideoInit, StartRecording, h, applyWrites, applyWrite,
        outputDirFailWrites, timestampFailWrites, cameraFailWrites]
  · unfold initLoopState; split <;> rfl
  · unfold initLoopState; split <;> rfl

theorem session_init_counters_zero_buffer_kept_witness :
    (RecordVideoInit (StartRecording { moving_avg_ := [42] } {}).2.1 .dirOk).1.moving_avg_ =
      ({ moving_avg_ := [42] } : ControllerState).moving_avg_ ∧
    (initLoopState [42] false 0).current_frame = 0 ∧
    (initLoopState [42] false 0).frames_captured = 0 :=
  session_init_counters_zero_buffer_kept { moving_avg_ := [42] } {} .dirOk
    [42] false 0 rfl

/-- A controller observed right after a worker completed a 5-second
session: the worker's exit writes (`elapsed_time_ = 5`, then
`recording_ = false`) applied to a recording controller. -/
def c7AfterSession : ControllerState :=
  applyOps { recording_ := true, session_start_ := 10 }
    [.workerExit (normalExitWrites 5)]

/-- C7 counterexample: after the worker froze `elapsed_time_ = 5` and
`recording()` became false, `elapsed_time()` does return 5 — but a
`ClearSession()` call (the COMPLETE server command, `main.cpp` line 407)
resets the field to 0 while `recording()` is still false, so a later
`elapsed_time()` call returns 0, not the worker-written duration.  The
claim, which says every call while `recording() == false` returns the
frozen worker-written value, is violated at this input. -/
theorem clearSession_forgets_frozen_duration :
    c7AfterSession.recording_ = false ∧
    elapsed_time c7AfterSession 99 = 5 ∧
    (ClearSession c7AfterSession).recording_ = false ∧
    elapsed_time (ClearSession c7AfterSession) 99 = 0 := by
  refine ⟨rfl, rfl, rfl, rfl⟩

/-- C7 amended: `elapsed_time()` returns `now - session_start` (in whole
seconds) whenever `recording() == true`, and the value of the
`elapsed_time_` field whenever `recording() == false`; the call itself
mutates nothing, so while not recording repeated calls agree with each
other regardless of the clock — but the field holds the duration frozen
by the worker only until `ClearSession` (or the next `StartRecording`)
resets it to zero. -/
theorem elapsed_time_live_or_field (s : ControllerState) (now tick : Int) :
    (s.recording_ = true → elapsed_time s now = now - s.session_start_) ∧
    (s.recording_ = false →
      elapsed_time s now = s.elapsed_time_ ∧
      elapsed_time s now = elapsed_time s tick) := by
  constructor
  · intro h; simp [elapsed_time, h]
  · intro h; simp [elapsed_time, h]

theorem elapsed_time_live_or_field_witness :
    elapsed_time { recording_ := true, session_start_ := 10 } 99 = 99 - 10 ∧
    elapsed_time c7AfterSession 99 = c7AfterSession.elapsed_time_ ∧
    elapsed_time c7AfterSession 99 = elapsed_time c7AfterSession 1234 :=
  ⟨(elapsed_time_live_or_field { recording_ := true, session_start_ := 10 } 99 1234).1 rfl,
   (elapsed_time_live_or_field c7AfterSession 99 1234).2 rfl⟩

/-- C8 counterexample: on the output-directory failure path of
`RecordVideo` (`pylon_camera.cpp` lines 41-47) `recording_ = false` is
the FIRST shared write, and the writes to `err_msg_` and `err_state_`
come after it — the last write on this path is `err_state_ = 1`, not
`recording_ = false` as the claim requires of every exit path. -/
theorem outputDirFail_recording_written_first :
    outputDirFailWrites "boom" =
      [SharedWrite.setRecording false,
       SharedWrite.setErrMsg "unable to setup output dir: boom",
       SharedWrite.setErrState 1] ∧
    (outputDirFailWrites "boom").getLast? ≠
      some (SharedWrite.setRecording false) ∧
    (outputDirFailWrites "boom").head? =
      some (SharedWrite.setRecording false) := by
  refine ⟨rfl, ?_, rfl⟩
  decide

/-- C8 amended: `recording_ = false` is the last shared write on the
normal loop-exit path, on the in-loop error exits (frame-retrieval
timeout) and on the timestamp-file failure path; but on the
output-directory failure path and on the camera attach/configure failure
path the worker writes `recording_ = false` FIRST and the error fields
after it, so on those two abort paths a reader that observes
`recording() == false` may still see the previous session's error
values. -/
theorem recording_false_last_write_except_two_aborts
    (msg : String) (e : Int) :
    (normalExitWrites e).getLast? = some (SharedWrite.setRecording false) ∧
    (timeoutExitWrites msg e).getLast? = some (SharedWrite.setRecording false) ∧
    timestampFailWrites.getLast? = some (SharedWrite.setRecording false) ∧
    (outputDirFailWrites msg).head? = some (SharedWrite.setRecording false) ∧
    (outputDirFailWrites msg).getLast? = some (SharedWrite.setErrState 1) ∧
    (cameraFailWrites msg).head? = some (SharedWrite.setRecording false) ∧
    (cameraFailWrites msg).getLast? = some (SharedWrite.setErrState 1) :=
  ⟨rfl, rfl, rfl, rfl, rfl, rfl, rfl⟩

/-- C9: every initialization failure of the worker session body — the
output-directory setup failure (a `std::runtime_error` from the directory
helper, caught on `pylon_camera.cpp` line 41), the timestamp-file open
failure (line 60), and the camera attach/configure failure (a Pylon
`GenericException`, caught on line 84) — leaves `err_state_ = 1`
(non-zero), a non-empty `err_msg_`, and `recording_ = false`, and the
worker returns without entering the acquisition loop and without letting
the exception escape the thread. -/
theorem init_failure_aborts_cleanly (s : ControllerState) (msg : String) :
    ((RecordVideoInit s (.dirFail msg)).1.err_state_ = 1 ∧
     0 < (RecordVideoInit s (.dirFail msg)).1.err_msg_.length ∧
     (RecordVideoInit s (.dirFail msg)).1.recording_ = false ∧
     (RecordVideoInit s (.dirFail msg)).2.1 = false ∧
     (RecordVideoInit s (.dirFail msg)).2.2 = false) ∧
    ((RecordVideoInit s .fileFail).1.err_state_ = 1 ∧
     0 < (RecordVideoInit s .fileFail).1.err_msg_.length ∧
     (RecordVideoInit s .fileFail).1.recording_ = false ∧
     (RecordVideoInit s .fileFail).2.1 = false ∧
     (RecordVideoInit s .fileFail).2.2 = false) ∧
    ((RecordVideoInit s (.cameraFail msg)).1.err_state_ = 1 ∧
     0 < (RecordVideoInit s (.cameraFail msg)).1.err_msg_.length ∧
     (RecordVideoInit s (.cameraFail msg)).1.recording_ = false ∧
     (RecordVideoInit s (.cameraFail msg)).2.1 = false ∧
     (RecordVideoInit s (.cameraFail msg)).2.2 = false) := by
  have hlen : ∀ pre msg : String, 0 < pre.length → 0 < (pre ++ msg).length := by
    intro pre msg h
    rw [String.length_append]
    omega
  exact ⟨⟨rfl, hlen "unable to setup output dir: " msg (by decide), rfl, rfl, rfl⟩,
    ⟨rfl, (by decide : 0 < ("error opening timestamp files" : String).length),
      rfl, rfl, rfl⟩,
    ⟨rfl, hlen "unable to configure camera: " msg (by decide), rfl, rfl, rfl⟩⟩

/-- Each branch of one loop iteration preserves the `next_hour`
bookkeeping: the only writes to `next_hour` and to the file-start hour
happen together at a successful roll (`part_005` lines 148-160). -/
theorem nextHourInv_loopStep (p : LoopParams) (st : LoopState) (i : LoopInput)
    (h : nextHourInv st) : nextHourInv (loopStep p st i).1 := by
  unfold nextHourInv at *
  unfold loopStep
  repeat' split
  any_goals exact h
  all_goals (try simp_all)
  all_goals (split <;> simp_all)

theorem nextHourInv_runLoop (p : LoopParams) (inputs : List LoopInput)
    (st : LoopState) (h : nextHourInv st) :
    nextHourInv (runLoop p st inputs) := by
  induction inputs generalizing st with
  | nil => exact h
  | cons i rest ih =>
    rw [runLoop]
    split
    · exact ih _ (nextHourInv_loopStep p st i h)
    · exact nextHourInv_loopStep p st i h

/-- C10: with `fragment_by_hour` set, entering the loop establishes
`next_hour = (session-start hour + 1) mod 24` and every iteration
preserves `next_hour = (hour at last file start + 1) mod 24`; on a good
frame, when the current wall-clock hour equals `next_hour` and the roll
succeeds the sink is rolled (`rolls` increments), `current_frame` resets
to 0 and `next_hour`/file-start hour advance to the new file's hour; when
the roll fails the iteration breaks with `err_state = 1` and the
session-fatal message, performing no roll; and no roll happens while the
hour differs from `next_hour`.  (Settled against the `part_005` revision
of `RecordVideo`, which checks `RollFile`'s return value.) -/
theorem hourly_rollover_behavior (p : LoopParams) (st : LoopState) (i : LoopInput)
    (t : Nat) (carried : List ℚ) (h0 : Int) (inputs : List LoopInput)
    (hstop : i.stopFlag = false)
    (hdur : i.now - p.session_start < p.duration)
    (hgrab : i.grab = .frame t) :
    nextHourInv (initLoopState carried true h0) ∧
    (nextHourInv st → nextHourInv (runLoop p st inputs)) ∧
    (p.fragment_by_hour = true → i.hourAtCheck = st.next_hour → i.rollOk = true →
      (loopStep p st i).1.current_frame = 0 ∧
      (loopStep p st i).1.rolls = st.rolls + 1 ∧
      (loopStep p st i).1.next_hour = (i.rollHour + 1) % 24 ∧
      (loopStep p st i).1.file_start_hour = i.rollHour ∧
      (loopStep p st i).2 = true) ∧
    (p.fragment_by_hour = true → i.hourAtCheck = st.next_hour → i.rollOk = false →
      (loopStep p st i).2 = false ∧
      (loopStep p st i).1.err_state = 1 ∧
      (loopStep p st i).1.err_msg = "Unable to setup next video" ∧
      (loopStep p st i).1.rolls = st.rolls) ∧
    (i.hourAtCheck ≠ st.next_hour →
      (loopStep p st i).1.rolls = st.rolls ∧
      (loopStep p st i).1.next_hour = st.next_hour) := by
  have hcond : ¬ (i.stopFlag = true ∨ p.duration ≤ i.now - p.session_start) := by
    simp [hstop]; omega
  refine ⟨?_, ?_, ?_, ?_, ?_⟩
  · simp [initLoopState, nextHourInv]
  · exact fun h => nextHourInv_runLoop p inputs st h
  · intro hf hh hr
    simp only [loopStep, if_neg hcond, hgrab]
    split <;> simp [hf, hh, hr]
  · intro hf hh hr
    simp only [loopStep, if_neg hcond, hgrab]
    split <;> simp [hf, hh, hr]
  · intro hh
    simp only [loopStep, if_neg hcond, hgrab]
    split <;> simp [hh]

theorem hourly_rollover_behavior_witness :
    nextHourInv (initLoopState [] true 3) ∧
    ((loopStep { duration := 1000, session_start := 0, fragment_by_hour := true, cap := 5 }
        (initLoopState [] true 3)
        { now := 0, stopFlag := false, grab := .frame 100,
          hourAtCheck := 4, rollHour := 4, rollOk := true }).1.current_frame = 0 ∧
     (loopStep { duration := 1000, session_start := 0, fragment_by_hour := true, cap := 5 }
        (initLoopState [] true 3)
        { now := 0, stopFlag := false, grab := .frame 100,
          hourAtCheck := 4, rollHour := 4, rollOk := true }).1.rolls =
       (initLoopState [] true 3).rolls + 1) ∧
    ((loopStep { duration := 1000, session_start := 0, fragment_by_hour := true, cap := 5 }
        (initLoopState [] true 3)
        { now := 0, stopFlag := false, grab := .frame 100,
          hourAtCheck := 4, rollHour := 4, rollOk := false }).2 = false ∧
     (loopStep { duration := 1000, session_start := 0, fragment_by_hour := true, cap := 5 }
        (initLoopState [] true 3)
        { now := 0, stopFlag := false, grab := .frame 100,
          hourAtCheck := 4, rollHour := 4, rollOk := false }).1.err_state = 1) ∧
    ((loopStep { duration := 1000, session_start := 0, fragment_by_hour := true, cap := 5 }
        (initLoopState [] true 3)
        { now := 0, stopFlag := false, grab := .frame 100,
          hourAtCheck := 7, rollHour := 7, rollOk := true }).1.rolls =
       (initLoopState [] true 3).rolls) := by
  have hS := hourly_rollover_behavior
    { duration := 1000, session_start := 0, fragment_by_hour := true, cap := 5 }
    (initLoopState [] true 3)
    { now := 0, stopFlag := false, grab := .frame 100,
      hourAtCheck := 4, rollHour := 4, rollOk := true }
    100 [] 3 [] rfl (by decide) rfl
  have hF := hourly_rollover_behavior
    { duration := 1000, session_start := 0, fragment_by_hour := true, cap := 5 }
    (initLoopState [] true 3)
    { now := 0, stopFlag := false, grab := .frame 100,
      hourAtCheck := 4, rollHour := 4, rollOk := false }
    100 [] 3 [] rfl (by decide) rfl
  have hN := hourly_rollover_behavior
    { duration := 1000, session_start := 0, fragment_by_hour := true, cap := 5 }
    (initLoopState [] true 3)
    { now := 0, stopFlag := false, grab := .frame 100,
      hourAtCheck := 7, rollHour := 7, rollOk := true }
    100 [] 3 [] rfl (by decide) rfl
  refine ⟨hS.1, ⟨?_, ?_⟩, ⟨?_, ?_⟩, ?_⟩
  · exact (hS.2.2.1 rfl (by decide) rfl).1
  · exact (hS.2.2.1 rfl (by decide) rfl).2.1
  · exact (hF.2.2.2.1 rfl (by decide) rfl).1
  · exact (hF.2.2.2.1 rfl (by decide) rfl).2.1
  · exact (hN.2.2.2.2 (by decide)).1
